import Mathlib

/-!
Verification development for the NaCl ssh plugin bridge
(`ssh_plugin.cc`): a shallow embedding of the message dispatcher,
descriptor registry, flow-controlled writer, base64 codec and session
controller, with theorems about the properties the design document
states.

Conventions of the embedding:
* `JVal` models `Json::Value` with the member-test / conversion
  semantics of the jsoncpp 0.x library the plugin links against
  (`isObject`/`isArray` also accept null; `asInt` coerces null to 0 and
  booleans to 0/1; out-of-range `operator[]` on an array yields null).
* Host-facing calls (`InvokeJS`, stream callbacks, `setenv`,
  `SetTerminalSize`, thread creation) are recorded as an ordered
  `Effect` list.
* A C `assert` is modelled by the `aborted` flag of `OpOut`: the state
  and effects at the moment the assertion fires are kept, and nothing
  after it runs.
-/

/-- Model of `Json::Value` (jsoncpp): null, bool, number, string,
array, object. Numbers are modelled as integers, matching the `asInt`
accesses the plugin performs. -/
inductive JVal : Type where
  | jnull : JVal
  | jbool : Bool → JVal
  | jnum : Int → JVal
  | jstr : String → JVal
  | jarr : List JVal → JVal
  | jobj : List (String × JVal) → JVal

/-- `Json::Value::isNumeric` (jsoncpp 0.x: integral types and booleans). -/
def JVal.isNumeric : JVal → Bool
  | .jnum _ => true
  | .jbool _ => true
  | _ => false

/-- `Json::Value::isBool`. -/
def JVal.isBool : JVal → Bool
  | .jbool _ => true
  | _ => false

/-- `Json::Value::isString`. -/
def JVal.isString : JVal → Bool
  | .jstr _ => true
  | _ => false

/-- `Json::Value::isObject` (jsoncpp 0.x also accepts null). -/
def JVal.isObject : JVal → Bool
  | .jnull => true
  | .jobj _ => true
  | _ => false

/-- `Json::Value::isArray` (jsoncpp 0.x also accepts null). -/
def JVal.isArray : JVal → Bool
  | .jnull => true
  | .jarr _ => true
  | _ => false

/-- `Json::Value::asInt` on the types the plugin feeds it: null
coerces to 0, booleans to 0/1, numbers to their value. -/
def JVal.asInt : JVal → Int
  | .jnum n => n
  | .jbool b => if b then 1 else 0
  | _ => 0

/-- `Json::Value::asUInt` on the values the plugin feeds it (guarded
by `isNumeric`). -/
def JVal.asUInt : JVal → Nat
  | .jnum n => n.toNat
  | .jbool b => if b then 1 else 0
  | _ => 0

/-- `Json::Value::asBool` (guarded by `isBool` at every use site). -/
def JVal.asBool : JVal → Bool
  | .jbool b => b
  | _ => false

/-- `Json::Value::asString`: null coerces to the empty string. -/
def JVal.asString : JVal → String
  | .jstr s => s
  | _ => ""

/-- `Json::Value::size`: element count of an array or object, 0
otherwise. -/
def JVal.size : JVal → Nat
  | .jarr l => l.length
  | .jobj f => f.length
  | _ => 0

/-- `args[(size_t)i]` for const access: element of an array, null when
out of range or when the value is not an array. -/
def jsonAt (v : JVal) (i : Nat) : JVal :=
  match v with
  | .jarr l => l.getD i .jnull
  | _ => .jnull

/-- `Json::Value::isMember` restricted to the object case (the plugin
only calls it on `session_args_`). -/
def getMember (v : JVal) (k : String) : Option JVal :=
  match v with
  | .jobj fields => (fields.find? (fun kv => kv.1 = k)).map (fun kv => kv.2)
  | _ => none

/-- `v.isMember(k)`. -/
def JVal.isMember (v : JVal) (k : String) : Bool :=
  (getMember v k).isSome

/-- `v[k]` for const access on an object: the member, or null. -/
def memberD (v : JVal) (k : String) : JVal :=
  (getMember v k).getD .jnull

/-!
## Base64 codec

`b64_ntop` / `b64_pton` from libresolv as the plugin uses them:
standard base64 with `=` padding. The byte sequences are lists of
naturals below 256.
-/

/-- The base64 alphabet, in the order `b64_ntop`/`b64_pton` index it. -/
def b64Chars : List Char :=
  ['A','B','C','D','E','F','G','H','I','J','K','L','M',
   'N','O','P','Q','R','S','T','U','V','W','X','Y','Z',
   'a','b','c','d','e','f','g','h','i','j','k','l','m',
   'n','o','p','q','r','s','t','u','v','w','x','y','z',
   '0','1','2','3','4','5','6','7','8','9','+','/']

/-- `Base64[n]`: the output character for a 6-bit group. -/
def encChar (n : Nat) : Char := b64Chars.getD n 'A'

/-- `strchr(Base64, ch)` as `b64_pton` performs it: the 6-bit value of
an alphabet character, `none` for a character outside the alphabet. -/
def decChar (c : Char) : Option Nat :=
  b64Chars.findIdx? (fun x => x = c)

/-- `b64_ntop`: encode a byte sequence, three bytes to four output
characters, padding the final group with `=`. -/
def encodeBytes : List Nat → List Char
  | [] => []
  | [b0] =>
      [encChar (b0 / 4), encChar (b0 % 4 * 16), '=', '=']
  | [b0, b1] =>
      [encChar (b0 / 4), encChar (b0 % 4 * 16 + b1 / 16),
       encChar (b1 % 16 * 4), '=']
  | b0 :: b1 :: b2 :: rest =>
      encChar (b0 / 4) :: encChar (b0 % 4 * 16 + b1 / 16) ::
      encChar (b1 % 16 * 4 + b2 / 64) :: encChar (b2 % 64) ::
      encodeBytes rest

/-- `b64_pton`: decode base64 text in groups of four characters; `=`
padding is accepted only at the end and only with the discarded low
bits zero, as the libresolv state machine checks; anything else fails
(the caller asserts on failure). -/
def decodeBytes : List Char → Option (List Nat)
  | [] => some []
  | c0 :: c1 :: c2 :: c3 :: rest =>
    (decChar c0).bind fun n0 =>
    (decChar c1).bind fun n1 =>
    if c2 = '=' then
      if c3 = '=' ∧ rest = [] ∧ n1 % 16 = 0 then
        some [n0 * 4 + n1 / 16]
      else none
    else
      (decChar c2).bind fun n2 =>
      if c3 = '=' then
        if rest = [] ∧ n2 % 4 = 0 then
          some [n0 * 4 + n1 / 16, n1 % 16 * 16 + n2 / 4]
        else none
      else
        (decChar c3).bind fun n3 =>
        (decodeBytes rest).map fun bs =>
          (n0 * 4 + n1 / 16) :: (n1 % 16 * 16 + n2 / 4) ::
          (n2 % 4 * 64 + n3) :: bs
  | _ => none

theorem decChar_encChar : ∀ n < 64, decChar (encChar n) = some n := by
  decide

theorem encChar_ne_pad : ∀ n < 64, encChar n ≠ '=' := by
  decide

/-- The codec round-trip: decoding the encoding of any byte sequence
recovers it exactly. -/
theorem decode_encode (l : List Nat) (h : ∀ b ∈ l, b < 256) :
    decodeBytes (encodeBytes l) = some l := by
  induction l using encodeBytes.induct with
  | case1 => rfl
  | case2 b0 =>
    have h0 : b0 < 256 := h b0 (by simp)
    rw [encodeBytes, decodeBytes,
        decChar_encChar (b0 / 4) (by omega), Option.some_bind,
        decChar_encChar (b0 % 4 * 16) (by omega), Option.some_bind,
        if_pos rfl, if_pos ⟨rfl, rfl, by omega⟩]
    congr 2
    omega
  | case3 b0 b1 =>
    have h0 : b0 < 256 := h b0 (by simp)
    have h1 : b1 < 256 := h b1 (by simp)
    rw [encodeBytes, decodeBytes,
        decChar_encChar (b0 / 4) (by omega), Option.some_bind,
        decChar_encChar (b0 % 4 * 16 + b1 / 16) (by omega), Option.some_bind,
        if_neg (encChar_ne_pad (b1 % 16 * 4) (by omega)),
        decChar_encChar (b1 % 16 * 4) (by omega), Option.some_bind,
        if_pos rfl, if_pos ⟨rfl, by omega⟩]
    congr 3
    · omega
    · omega
  | case4 b0 b1 b2 rest ih =>
    have h0 : b0 < 256 := h b0 (by simp)
    have h1 : b1 < 256 := h b1 (by simp)
    have h2 : b2 < 256 := h b2 (by simp)
    have hr : ∀ b ∈ rest, b < 256 := by
      intro b hb
      exact h b (by simp [hb])
    rw [encodeBytes, decodeBytes,
        decChar_encChar (b0 / 4) (by omega), Option.some_bind,
        decChar_encChar (b0 % 4 * 16 + b1 / 16) (by omega), Option.some_bind,
        if_neg (encChar_ne_pad (b1 % 16 * 4 + b2 / 64) (by omega)),
        decChar_encChar (b1 % 16 * 4 + b2 / 64) (by omega), Option.some_bind,
        if_neg (encChar_ne_pad (b2 % 64) (by omega)),
        decChar_encChar (b2 % 64) (by omega), Option.some_bind,
        ih hr, Option.map_some']
    congr 4
    · omega
    · omega
    · omega

/-!
## Plugin state and effects
-/

/-- An observable action of the plugin: an outbound `InvokeJS`
envelope, a callback into a registered stream handle, a call into the
filesystem collaborator, a `setenv`, or the creation of the session
thread. Stream handles are identified by a numeric tag. -/
inductive Effect : Type where
  | invokeJS : String → List JVal → Effect
  | streamOnOpen : Nat → Bool → Bool → Effect
  | streamOnRead : Nat → List Nat → Effect
  | streamOnWriteAck : Nat → Nat → Effect
  | streamOnReadReady : Nat → Bool → Effect
  | streamOnClose : Nat → Effect
  | setTerminalSize : Int → Int → Effect
  | useJsSocket : Bool → Effect
  | setEnv : String → String → Effect
  | exitCodeAcked : Effect
  | spawnSession : Effect

/-- `PrintLogImpl`: one `printLog` envelope carrying the message. -/
def printLogEff (msg : String) : Effect :=
  .invokeJS "printLog" [.jstr msg]

/-- The mutable state of `SshPluginInstance`: the descriptor map
`streams_` (fd to stream-handle tag, unique keys), whether
`openssh_thread_` is non-null, and the captured `session_args_`. -/
structure PluginState : Type where
  streams : List (Int × Nat)
  opensshThread : Bool
  sessionArgs : JVal

/-- `streams_.find(fd)`. -/
def lookupFd (m : List (Int × Nat)) (fd : Int) : Option Nat :=
  (m.find? (fun kv => kv.1 = fd)).map (fun kv => kv.2)

/-- `streams_[fd] = stream` (insert or overwrite). -/
def setFd (m : List (Int × Nat)) (fd : Int) (stream : Nat) : List (Int × Nat) :=
  match m with
  | [] => [(fd, stream)]
  | kv :: rest => if kv.1 = fd then (fd, stream) :: rest else kv :: setFd rest fd stream

/-- `streams_.erase(it)` for the entry with key `fd` (keys are unique
in a `std::map`, so removing every entry with that key is the same
operation). -/
def eraseFd (m : List (Int × Nat)) (fd : Int) : List (Int × Nat) :=
  m.filter (fun kv => ¬ kv.1 = fd)

/-- Result of one plugin operation: the state after it, the ordered
effects it performed, and whether a C `assert` fired (in which case
state and effects are those at the moment of the abort). -/
structure OpOut : Type where
  state : PluginState
  effects : List Effect
  aborted : Bool

/-!
## Descriptor registry: open requests from the native side
-/

/-- `SshPluginInstance::OpenFile`: emits the `openFile` request when a
path is given, asserts the fd is not yet registered, then registers
the stream. -/
def OpenFile (fd : Int) (name : Option String) (mode : Int) (stream : Nat)
    (s : PluginState) : OpOut :=
  let effs :=
    match name with
    | some n => [Effect.invokeJS "openFile" [.jnum fd, .jstr n, .jnum mode]]
    | none => []
  if (lookupFd s.streams fd).isSome then
    { state := s, effects := effs, aborted := true }
  else
    { state := { s with streams := setFd s.streams fd stream },
      effects := effs, aborted := false }

/-- `SshPluginInstance::OpenSocket`: emits the `openSocket` request,
asserts the fd is not yet registered, then registers the stream. -/
def OpenSocket (fd : Int) (host : String) (port : Nat) (stream : Nat)
    (s : PluginState) : OpOut :=
  let effs := [Effect.invokeJS "openSocket" [.jnum fd, .jstr host, .jnum port]]
  if (lookupFd s.streams fd).isSome then
    { state := s, effects := effs, aborted := true }
  else
    { state := { s with streams := setFd s.streams fd stream },
      effects := effs, aborted := false }

/-!
## Flow-controlled writer
-/

/-- `kMaxWriteSize` in `SshPluginInstance::Write`: the raw chunk
ceiling in bytes. -/
def kMaxWriteSize : Nat := 24 * 1024

/-- The chunk decomposition performed by the `while (start < size)`
loop of `Write`: successive runs of at most `kMaxWriteSize` bytes. -/
def chunksOf (l : List Nat) : List (List Nat) :=
  if l.isEmpty then []
  else l.take kMaxWriteSize :: chunksOf (l.drop kMaxWriteSize)
termination_by l.length
decreasing_by
  have hne : l ≠ [] := by
    intro hl
    simp [hl] at *
  have hpos : 0 < l.length := List.length_pos.mpr hne
  simp only [List.length_drop, kMaxWriteSize]
  omega

/-- `SshPluginInstance::Write`: for each chunk in order, one `write`
envelope `[fd, base64(chunk)]`. An empty payload emits nothing. -/
def WriteFd (fd : Int) (data : List Nat) : List Effect :=
  if data.isEmpty then []
  else
    Effect.invokeJS "write"
        [.jnum fd, .jstr (String.mk (encodeBytes (data.take kMaxWriteSize)))] ::
      WriteFd fd (data.drop kMaxWriteSize)
termination_by data.length
decreasing_by
  have hne : data ≠ [] := by
    intro hl
    simp [hl] at *
  have hpos : 0 < data.length := List.length_pos.mpr hne
  simp only [List.length_drop, kMaxWriteSize]
  omega

/-- `SshPluginInstance::Read`: a single `read` envelope. -/
def ReadFd (fd : Int) (size : Nat) : List Effect :=
  [Effect.invokeJS "read" [.jnum fd, .jnum size]]

/-- `SshPluginInstance::Close`: a single `close` envelope. -/
def CloseFd (fd : Int) : List Effect :=
  [Effect.invokeJS "close" [.jnum fd]]

/-!
## Dispatcher handlers

Each `On...` handler receives the `arguments` value of the envelope
(an array, or null, as `HandleMessage`'s `isArray` guard admits) and
the current state.
-/

/-- `SshPluginInstance::OnOpen` (shared by `onOpenFile` and
`onOpenSocket`): type-checks the three arguments, forwards the result
to the stream handle, and erases the descriptor when `success` is
false. -/
def OnOpen (args : JVal) (s : PluginState) : OpOut :=
  let fd := jsonAt args 0
  let success := jsonAt args 1
  let is_atty := jsonAt args 2
  if fd.isNumeric && success.isBool && is_atty.isBool then
    match lookupFd s.streams fd.asInt with
    | some h =>
      { state :=
          if success.asBool then s
          else { s with streams := eraseFd s.streams fd.asInt },
        effects := [Effect.streamOnOpen h success.asBool is_atty.asBool],
        aborted := false }
    | none =>
      { state := s,
        effects := [printLogEff "onOpen: for unknown file descriptor\n"],
        aborted := false }
  else
    { state := s,
      effects := [printLogEff "onOpen: invalid arguments\n"],
      aborted := false }

/-- `SshPluginInstance::OnRead`: type-checks, base64-decodes the data
(asserting on decode failure, as `assert(res >= 0)` does) and forwards
the bytes to the stream handle. -/
def OnRead (args : JVal) (s : PluginState) : OpOut :=
  let fd := jsonAt args 0
  let data := jsonAt args 1
  if fd.isNumeric && data.isString then
    match lookupFd s.streams fd.asInt with
    | some h =>
      match decodeBytes data.asString.toList with
      | some bytes =>
        { state := s, effects := [Effect.streamOnRead h bytes], aborted := false }
      | none =>
        { state := s, effects := [], aborted := true }
    | none =>
      { state := s,
        effects := [printLogEff "onRead: for unknown file descriptor\n"],
        aborted := false }
  else
    { state := s,
      effects := [printLogEff "onRead: invalid arguments\n"],
      aborted := false }

/-- `SshPluginInstance::OnWriteAcknowledge`: type-checks and forwards
the acknowledged count to the stream handle. -/
def OnWriteAcknowledge (args : JVal) (s : PluginState) : OpOut :=
  let fd := jsonAt args 0
  let count := jsonAt args 1
  if fd.isNumeric && count.isNumeric then
    match lookupFd s.streams fd.asInt with
    | some h =>
      { state := s, effects := [Effect.streamOnWriteAck h count.asUInt],
        aborted := false }
    | none =>
      { state := s,
        effects := [printLogEff "onWriteAcknowledge: for unknown file descriptor\n"],
        aborted := false }
  else
    { state := s,
      effects := [printLogEff "onWriteAcknowledge: invalid arguments\n"],
      aborted := false }

/-- `SshPluginInstance::OnClose`: no argument validation; coerces the
first argument with `asInt`, notifies the handle and erases the
descriptor, or logs when the fd is unknown. -/
def OnClose (args : JVal) (s : PluginState) : OpOut :=
  let fd := jsonAt args 0
  match lookupFd s.streams fd.asInt with
  | some h =>
    { state := { s with streams := eraseFd s.streams fd.asInt },
      effects := [Effect.streamOnClose h], aborted := false }
  | none =>
    { state := s,
      effects := [printLogEff "onClose: for unknown file descriptor\n"],
      aborted := false }

/-- `SshPluginInstance::OnReadReady`: type-checks and forwards the
readiness flag to the stream handle. -/
def OnReadReady (args : JVal) (s : PluginState) : OpOut :=
  let fd := jsonAt args 0
  let result := jsonAt args 1
  if fd.isNumeric && result.isBool then
    match lookupFd s.streams fd.asInt with
    | some h =>
      { state := s, effects := [Effect.streamOnReadReady h result.asBool],
        aborted := false }
    | none =>
      { state := s,
        effects := [printLogEff "onReadReady: for unknown file descriptor\n"],
        aborted := false }
  else
    { state := s,
      effects := [printLogEff "onReadReady: invalid arguments\n"],
      aborted := false }

/-- `SshPluginInstance::OnResize`: no argument validation; both
arguments are coerced with `asInt` and forwarded to the filesystem
collaborator. -/
def OnResize (args : JVal) (s : PluginState) : OpOut :=
  { state := s,
    effects := [Effect.setTerminalSize (jsonAt args 0).asInt (jsonAt args 1).asInt],
    aborted := false }

/-- `SshPluginInstance::OnExitAcknowledge`: unconditionally notifies
the filesystem collaborator. -/
def OnExitAcknowledge (_args : JVal) (s : PluginState) : OpOut :=
  { state := s, effects := [Effect.exitCodeAcked], aborted := false }

/-!
## Session controller
-/

/-- The environment-injection loop of `StartSession`: one `setenv` per
member of the `environment` object whose value is a string (object
keys are always strings in jsoncpp). -/
def envEffects (v : JVal) : List Effect :=
  match v with
  | .jobj fields =>
    fields.filterMap fun kv =>
      if kv.2.isString then some (Effect.setEnv kv.1 kv.2.asString) else none
  | _ => []

/-- The accepted-config prefix of `StartSession`, in source order:
terminal size when both members are numeric, the socket-transport
preference when the member is a bool, the environment injection, and
the forwarding-agent variable when the member is a string. -/
def configEffects (sa : JVal) : List Effect :=
  (if sa.isMember "terminalWidth" && (memberD sa "terminalWidth").isNumeric &&
      sa.isMember "terminalHeight" && (memberD sa "terminalHeight").isNumeric then
     [Effect.setTerminalSize (memberD sa "terminalWidth").asInt
       (memberD sa "terminalHeight").asInt]
   else []) ++
  (if sa.isMember "useJsSocket" && (memberD sa "useJsSocket").isBool then
     [Effect.useJsSocket (memberD sa "useJsSocket").asBool]
   else []) ++
  (if sa.isMember "environment" && (memberD sa "environment").isObject then
     envEffects (memberD sa "environment")
   else []) ++
  (if sa.isMember "authAgentAppID" && (memberD sa "authAgentAppID").isString then
     [Effect.setEnv "SSH_AUTH_SOCK" (memberD sa "authAgentAppID").asString]
   else [])

/-- `SshPluginInstance::StartSession`. `spawnOk` is the oracle for
`pthread_create` succeeding; on failure the thread handle stays null
and `SendExitCodeImpl(0, -1)` runs directly. -/
def StartSession (spawnOk : Bool) (args : JVal) (s : PluginState) : OpOut :=
  if args.size == 1 && (jsonAt args 0).isObject && !s.opensshThread then
    let sa := jsonAt args 0
    if spawnOk then
      { state := { s with sessionArgs := sa, opensshThread := true },
        effects := configEffects sa ++ [Effect.spawnSession],
        aborted := false }
    else
      { state := { s with sessionArgs := sa },
        effects := configEffects sa ++ [Effect.invokeJS "exit" [.jnum (-1)]],
        aborted := false }
  else
    { state := s,
      effects := [printLogEff "startSession: invalid arguments\n"],
      aborted := false }

/-- `SshPluginInstance::Invoke`: the name-to-handler dispatch chain.
Unknown names fall through silently. -/
def Invoke (spawnOk : Bool) (function : String) (args : JVal)
    (s : PluginState) : OpOut :=
  if function == "startSession" then StartSession spawnOk args s
  else if function == "onOpenFile" || function == "onOpenSocket" then OnOpen args s
  else if function == "onRead" then OnRead args s
  else if function == "onWriteAcknowledge" then OnWriteAcknowledge args s
  else if function == "onClose" then OnClose args s
  else if function == "onReadReady" then OnReadReady args s
  else if function == "onResize" then OnResize args s
  else if function == "onExitAcknowledge" then OnExitAcknowledge args s
  else { state := s, effects := [], aborted := false }

/-- The string entries of the config's `arguments` array, in order
(the argv push loop keeps strings and skips the rest, logging each
skip). -/
def argStringsOf (sa : JVal) : List String :=
  if sa.isMember "arguments" && (memberD sa "arguments").isArray then
    match memberD sa "arguments" with
    | .jarr l => l.filterMap fun v => if v.isString then some v.asString else none
    | _ => []
  else []

/-- The optional `-p<port>` token (`snprintf(buf, .., "-p%d", ..)`). -/
def portTokenOf (sa : JVal) : List String :=
  if sa.isMember "port" then ["-p" ++ toString (memberD sa "port").asInt] else []

/-- The optional `<user>@<host>` token, built only when both members
are present. -/
def userHostTokenOf (sa : JVal) : List String :=
  if sa.isMember "username" && sa.isMember "host" then
    [(memberD sa "username").asString ++ "@" ++ (memberD sa "host").asString]
  else []

/-- The subsystem parameter handed to `ssh_main` out of band. -/
def subsystemOf (sa : JVal) : Option String :=
  if sa.isMember "subsystem" then some (memberD sa "subsystem").asString else none

/-- The argv accumulation loop over the config's `arguments` array:
`argv.push_back` for each string entry, a log for the rest. -/
def pushArgs (sa : JVal) (acc : List String) : List String :=
  if sa.isMember "arguments" && (memberD sa "arguments").isArray then
    match memberD sa "arguments" with
    | .jarr l => l.foldl (fun a v => if v.isString then a ++ [v.asString] else a) acc
    | _ => acc
  else acc

/-- `SshPluginInstance::SessionThreadImpl`'s argv construction,
translated push by push: program name, the `-vvv` flag when compiled
with `DEBUG`, the config arguments, the port token, the user-at-host
token. The subsystem is not pushed. -/
def sessionArgv (debug : Bool) (sa : JVal) : List String :=
  let a0 := ["ssh"]
  let a1 := if debug then a0 ++ ["-vvv"] else a0
  let a2 := pushArgs sa a1
  let a3 :=
    if sa.isMember "port" then a2 ++ ["-p" ++ toString (memberD sa "port").asInt]
    else a2
  let a4 :=
    if sa.isMember "username" && sa.isMember "host" then
      a3 ++ [(memberD sa "username").asString ++ "@" ++ (memberD sa "host").asString]
    else a3
  a4

/-- `SshPluginInstance::SendExitCode` followed by the marshalled
`SendExitCodeImpl`: clears the thread handle and emits one `exit`
envelope with the return value. -/
def SendExitCode (code : Int) (s : PluginState) : PluginState × List Effect :=
  ({ s with opensshThread := false }, [Effect.invokeJS "exit" [.jnum code]])

/-- One whole session attempt: `StartSession`, then, when the session
thread was created, the tail of `SessionThreadImpl` reporting
`ssh_main`'s return value through `SendExitCode`. -/
def sessionRun (spawnOk : Bool) (ret : Int) (args : JVal)
    (s : PluginState) : PluginState × List Effect :=
  let r := StartSession spawnOk args s
  if r.state.opensshThread then
    let t := SendExitCode ret r.state
    (t.1, r.effects ++ t.2)
  else (r.state, r.effects)

/-- The exit codes carried by the `exit` envelopes of an effect
trace. -/
def exitCodesOf (effs : List Effect) : List Int :=
  effs.filterMap fun e =>
    match e with
    | .invokeJS n args =>
      if n = "exit" then
        match args with
        | [.jnum c] => some c
        | _ => none
      else none
    | _ => none

/-- The payloads of the `write` envelopes of an effect trace, decoded
and concatenated; `none` if any envelope is not a well-formed `write`
or fails to decode. -/
def decodedConcat (effs : List Effect) : Option (List Nat) :=
  match effs with
  | [] => some []
  | e :: rest =>
    match e with
    | .invokeJS n args =>
      if n = "write" then
        match args with
        | [_, .jstr sdata] =>
          (decodeBytes sdata.toList).bind fun bs =>
          (decodedConcat rest).map fun bs2 => bs ++ bs2
        | _ => none
      else none
    | _ => none

/-!
## Chunking lemmas
-/

theorem chunksOf_nil : chunksOf [] = [] := by
  rw [chunksOf]
  rfl

theorem writeFd_eq_map (fd : Int) (data : List Nat) :
    WriteFd fd data = (chunksOf data).map fun c =>
      Effect.invokeJS "write" [.jnum fd, .jstr (String.mk (encodeBytes c))] := by
  induction data using chunksOf.induct with
  | case1 l hl =>
    rw [WriteFd, if_pos hl, chunksOf, if_pos hl]
    rfl
  | case2 l hl ih =>
    rw [WriteFd, if_neg hl, chunksOf, if_neg hl, List.map_cons, ih]

theorem chunksOf_length (l : List Nat) :
    (chunksOf l).length = (l.length + (kMaxWriteSize - 1)) / kMaxWriteSize := by
  induction l using chunksOf.induct with
  | case1 l hl =>
    rw [chunksOf, if_pos hl, List.isEmpty_iff.mp hl]
    rfl
  | case2 l hl ih =>
    rw [chunksOf, if_neg hl]
    have hpos : 0 < l.length := List.length_pos.mpr (fun h0 => hl (by simp [h0]))
    rw [List.length_cons, ih, List.length_drop]
    simp only [kMaxWriteSize] at *
    omega

theorem chunksOf_flatten (l : List Nat) : (chunksOf l).flatten = l := by
  induction l using chunksOf.induct with
  | case1 l hl =>
    rw [chunksOf, if_pos hl, List.isEmpty_iff.mp hl]
    rfl
  | case2 l hl ih =>
    rw [chunksOf, if_neg hl, List.flatten_cons, ih, List.take_append_drop]

theorem chunksOf_dropLast_length (l : List Nat) :
    ∀ c ∈ (chunksOf l).dropLast, c.length = kMaxWriteSize := by
  induction l using chunksOf.induct with
  | case1 l hl =>
    rw [chunksOf, if_pos hl]
    intro c hc
    simp at hc
  | case2 l hl ih =>
    intro c hc
    rw [chunksOf, if_neg hl] at hc
    rcases h' : chunksOf (l.drop kMaxWriteSize) with _ | ⟨c2, rest⟩
    · rw [h'] at hc
      simp at hc
    · rw [h', List.dropLast_cons₂, List.mem_cons] at hc
      rcases hc with rfl | hc2
      · have hd : l.drop kMaxWriteSize ≠ [] := by
          intro h0
          rw [h0, chunksOf_nil] at h'
          exact List.noConfusion h'
        have hlen : kMaxWriteSize < l.length := by
          have := mt List.drop_eq_nil_iff.mpr hd
          omega
        rw [List.length_take]
        omega
      · exact ih c (h' ▸ hc2)

theorem decodedConcat_writeFd (fd : Int) (data : List Nat)
    (h : ∀ b ∈ data, b < 256) :
    decodedConcat (WriteFd fd data) = some data := by
  induction data using chunksOf.induct with
  | case1 l hl =>
    rw [WriteFd, if_pos hl, List.isEmpty_iff.mp hl]
    rfl
  | case2 l hl ih =>
    have htake : ∀ b ∈ l.take kMaxWriteSize, b < 256 := fun b hb =>
      h b (List.take_subset _ _ hb)
    have hdrop : ∀ b ∈ l.drop kMaxWriteSize, b < 256 := fun b hb =>
      h b (List.drop_subset _ _ hb)
    rw [WriteFd, if_neg hl]
    simp only [decodedConcat, String.toList]
    rw [if_pos trivial, decode_encode _ htake, Option.some_bind, ih hdrop,
        Option.map_some', List.take_append_drop]

/-- C1: for every byte sequence `b`, including the empty sequence and
sequences with all 256 byte values, decoding the text produced by
encoding `b` yields exactly `b`: the base64 codec used by `Write` for
outbound chunks and by `OnRead` for inbound data is a lossless,
deterministic round-trip. -/
theorem codec_roundtrip_c1 (b : List Nat) (h : ∀ x ∈ b, x < 256) :
    decodeBytes (encodeBytes b) = some b :=
  decode_encode b h

theorem codec_roundtrip_c1_witness :
    (∀ x ∈ [0, 77, 255, 10], x < 256) ∧
    decodeBytes (encodeBytes [0, 77, 255, 10]) = some [0, 77, 255, 10] :=
  ⟨by decide, codec_roundtrip_c1 [0, 77, 255, 10] (by decide)⟩

/-- C2: for every fd and payload of `N` bytes, `Write` emits exactly
`ceil(N / kMaxWriteSize)` ordered `write` envelopes, each carrying
`[fd, encodedChunk]`; every chunk before the last is exactly
`kMaxWriteSize` bytes before encoding; and the decoded payloads
concatenated in emission order equal the original bytes (so `N = 0`
emits zero envelopes). -/
theorem write_chunking_c2 (fd : Int) (data : List Nat)
    (h : ∀ b ∈ data, b < 256) :
    (WriteFd fd data).length
        = (data.length + (kMaxWriteSize - 1)) / kMaxWriteSize ∧
    WriteFd fd data = (chunksOf data).map (fun c =>
      Effect.invokeJS "write" [.jnum fd, .jstr (String.mk (encodeBytes c))]) ∧
    (∀ c ∈ (chunksOf data).dropLast, c.length = kMaxWriteSize) ∧
    (chunksOf data).flatten = data ∧
    decodedConcat (WriteFd fd data) = some data := by
  refine ⟨?_, writeFd_eq_map fd data, chunksOf_dropLast_length data,
    chunksOf_flatten data, decodedConcat_writeFd fd data h⟩
  rw [writeFd_eq_map, List.length_map, chunksOf_length]

theorem write_chunking_c2_witness :
    (∀ b ∈ [9, 0, 255], b < 256) ∧
    ((WriteFd 4 [9, 0, 255]).length
        = (([9, 0, 255] : List Nat).length + (kMaxWriteSize - 1)) / kMaxWriteSize ∧
     WriteFd 4 [9, 0, 255] = (chunksOf [9, 0, 255]).map (fun c =>
       Effect.invokeJS "write" [.jnum 4, .jstr (String.mk (encodeBytes c))]) ∧
     (∀ c ∈ (chunksOf [9, 0, 255]).dropLast, c.length = kMaxWriteSize) ∧
     (chunksOf [9, 0, 255]).flatten = [9, 0, 255] ∧
     decodedConcat (WriteFd 4 [9, 0, 255]) = some [9, 0, 255]) :=
  ⟨by decide, write_chunking_c2 4 [9, 0, 255] (by decide)⟩

/-!
## Descriptor-map and argv helper lemmas
-/

theorem lookupFd_eraseFd_self (m : List (Int × Nat)) (fd : Int) :
    lookupFd (eraseFd m fd) fd = none := by
  rw [lookupFd, Option.map_eq_none', List.find?_eq_none]
  intro kv hkv
  have hmem := (List.mem_filter.mp hkv).2
  simp at hmem ⊢
  exact hmem

theorem foldl_pushArg (l : List JVal) (acc : List String) :
    l.foldl (fun a v => if v.isString then a ++ [v.asString] else a) acc
      = acc ++ l.filterMap (fun v => if v.isString then some v.asString else none) := by
  induction l generalizing acc with
  | nil => simp
  | cons v t ih =>
    rw [List.foldl_cons, List.filterMap_cons]
    by_cases hv : v.isString
    · rw [if_pos hv, if_pos hv, ih, List.append_assoc]
      rfl
    · rw [if_neg hv, if_neg hv, ih]

theorem pushArgs_eq (sa : JVal) (acc : List String) :
    pushArgs sa acc = acc ++ argStringsOf sa := by
  unfold pushArgs argStringsOf
  split_ifs with h1
  · cases hm : memberD sa "arguments" <;> simp [foldl_pushArg]
  · simp

theorem sessionArgv_eq (debug : Bool) (sa : JVal) :
    sessionArgv debug sa = ["ssh"] ++ (if debug then ["-vvv"] else []) ++
      argStringsOf sa ++ portTokenOf sa ++ userHostTokenOf sa := by
  simp only [sessionArgv, portTokenOf, userHostTokenOf, pushArgs_eq]
  split_ifs <;> simp

theorem exitCodesOf_append (a b : List Effect) :
    exitCodesOf (a ++ b) = exitCodesOf a ++ exitCodesOf b := by
  unfold exitCodesOf
  rw [List.filterMap_append]

theorem exitCodesOf_envEffects (v : JVal) : exitCodesOf (envEffects v) = [] := by
  cases v <;> try rfl
  rename_i fields
  rw [envEffects, exitCodesOf, List.filterMap_eq_nil_iff]
  intro e he
  rcases List.mem_filterMap.mp he with ⟨kv, _, hkv⟩
  by_cases hs : kv.2.isString
  · rw [if_pos hs] at hkv
    cases hkv
    rfl
  · rw [if_neg hs] at hkv
    exact Option.noConfusion hkv

theorem exitCodesOf_configEffects (sa : JVal) :
    exitCodesOf (configEffects sa) = [] := by
  unfold configEffects
  rw [exitCodesOf_append, exitCodesOf_append, exitCodesOf_append]
  split_ifs <;> (try rw [exitCodesOf_envEffects]) <;> rfl

/-- C3: registering an fd that is already registered, through
`OpenFile` or `OpenSocket`, trips the duplicate-descriptor assertion
before the map assignment, so the operation is rejected and the
existing fd-to-handle mapping is unchanged. -/
theorem open_duplicate_fd_c3 (fd : Int) (nm : String) (mode : Int)
    (stream h : Nat) (host : String) (port : Nat) (s : PluginState)
    (hreg : lookupFd s.streams fd = some h) :
    (OpenFile fd (some nm) mode stream s).aborted = true ∧
    (OpenFile fd (some nm) mode stream s).state.streams = s.streams ∧
    (OpenSocket fd host port stream s).aborted = true ∧
    (OpenSocket fd host port stream s).state.streams = s.streams := by
  unfold OpenFile OpenSocket
  rw [hreg]
  exact ⟨rfl, rfl, rfl, rfl⟩

theorem open_duplicate_fd_c3_witness :
    lookupFd ([( 3, 5 )] : List (Int × Nat)) 3 = some 5 ∧
    ((OpenFile 3 (some "/dev/tty") 0 9 ⟨[(3, 5)], false, .jnull⟩).aborted = true ∧
     (OpenFile 3 (some "/dev/tty") 0 9 ⟨[(3, 5)], false, .jnull⟩).state.streams = [(3, 5)] ∧
     (OpenSocket 3 "example.com" 22 9 ⟨[(3, 5)], false, .jnull⟩).aborted = true ∧
     (OpenSocket 3 "example.com" 22 9 ⟨[(3, 5)], false, .jnull⟩).state.streams = [(3, 5)]) :=
  ⟨by decide, open_duplicate_fd_c3 3 "/dev/tty" 0 9 5 "example.com" 22
    ⟨[(3, 5)], false, .jnull⟩ (by decide)⟩

/-- C4 as stated is false: `OnClose` performs no argument-count or
type validation. With an empty argument array it coerces the missing
fd to 0 (`asInt` of null), finds the registered descriptor 0, closes
and erases it — a state change with no diagnostic, from a malformed
request. -/
theorem handler_validation_c4_counterexample :
    (OnClose (.jarr []) ⟨[(0, 7)], false, .jnull⟩).state.streams = [] ∧
    (OnClose (.jarr []) ⟨[(0, 7)], false, .jnull⟩).effects
      = [Effect.streamOnClose 7] :=
  ⟨rfl, rfl⟩

/-- C4 amended: the handlers `onOpenFile`/`onOpenSocket`, `onRead`,
`onWriteAcknowledge`, `onReadReady` and `startSession` do validate the
arguments they use before acting and, on a shape violation, log a
diagnostic and perform no state change; `onClose` and `onResize`
perform no validation and coerce their arguments with `asInt`
instead. -/
theorem handler_validation_c4_amended (spawnOk : Bool) (args : JVal)
    (s : PluginState) :
    (((jsonAt args 0).isNumeric && (jsonAt args 1).isBool &&
        (jsonAt args 2).isBool) = false →
      OnOpen args s = ⟨s, [printLogEff "onOpen: invalid arguments\n"], false⟩) ∧
    (((jsonAt args 0).isNumeric && (jsonAt args 1).isString) = false →
      OnRead args s = ⟨s, [printLogEff "onRead: invalid arguments\n"], false⟩) ∧
    (((jsonAt args 0).isNumeric && (jsonAt args 1).isNumeric) = false →
      OnWriteAcknowledge args s
        = ⟨s, [printLogEff "onWriteAcknowledge: invalid arguments\n"], false⟩) ∧
    (((jsonAt args 0).isNumeric && (jsonAt args 1).isBool) = false →
      OnReadReady args s
        = ⟨s, [printLogEff "onReadReady: invalid arguments\n"], false⟩) ∧
    ((args.size == 1 && (jsonAt args 0).isObject) = false →
      StartSession spawnOk args s
        = ⟨s, [printLogEff "startSession: invalid arguments\n"], false⟩) := by
  refine ⟨fun h1 => ?_, fun h2 => ?_, fun h3 => ?_, fun h4 => ?_, fun h5 => ?_⟩
  · rw [OnOpen, if_neg (by rw [h1]; exact Bool.false_ne_true)]
  · rw [OnRead, if_neg (by rw [h2]; exact Bool.false_ne_true)]
  · rw [OnWriteAcknowledge, if_neg (by rw [h3]; exact Bool.false_ne_true)]
  · rw [OnReadReady, if_neg (by rw [h4]; exact Bool.false_ne_true)]
  · rw [StartSession, if_neg (by rw [h5, Bool.false_and]; exact Bool.false_ne_true)]

theorem handler_validation_c4_witness :
    OnOpen (.jarr []) ⟨[], false, .jnull⟩
      = ⟨⟨[], false, .jnull⟩, [printLogEff "onOpen: invalid arguments\n"], false⟩ ∧
    OnRead (.jarr []) ⟨[], false, .jnull⟩
      = ⟨⟨[], false, .jnull⟩, [printLogEff "onRead: invalid arguments\n"], false⟩ ∧
    OnWriteAcknowledge (.jarr []) ⟨[], false, .jnull⟩
      = ⟨⟨[], false, .jnull⟩, [printLogEff "onWriteAcknowledge: invalid arguments\n"], false⟩ ∧
    OnReadReady (.jarr []) ⟨[], false, .jnull⟩
      = ⟨⟨[], false, .jnull⟩, [printLogEff "onReadReady: invalid arguments\n"], false⟩ ∧
    StartSession false (.jarr []) ⟨[], false, .jnull⟩
      = ⟨⟨[], false, .jnull⟩, [printLogEff "startSession: invalid arguments\n"], false⟩ :=
  ⟨(handler_validation_c4_amended false (.jarr []) ⟨[], false, .jnull⟩).1 rfl,
   (handler_validation_c4_amended false (.jarr []) ⟨[], false, .jnull⟩).2.1 rfl,
   (handler_validation_c4_amended false (.jarr []) ⟨[], false, .jnull⟩).2.2.1 rfl,
   (handler_validation_c4_amended false (.jarr []) ⟨[], false, .jnull⟩).2.2.2.1 rfl,
   (handler_validation_c4_amended false (.jarr []) ⟨[], false, .jnull⟩).2.2.2.2 rfl⟩

/-- C5: a `startSession` request while a session is Running
(`openssh_thread_` non-null) is rejected with a logged diagnostic and
causes no state change at all: the captured config, the descriptor
map and the thread handle are untouched and no environment or
filesystem effect is performed. -/
theorem session_single_flight_c5 (spawnOk : Bool) (args : JVal)
    (s : PluginState) (hrun : s.opensshThread = true) :
    StartSession spawnOk args s
      = ⟨s, [printLogEff "startSession: invalid arguments\n"], false⟩ := by
  rw [StartSession, hrun]
  simp

theorem session_single_flight_c5_witness :
    (⟨[(1, 2)], true, .jobj []⟩ : PluginState).opensshThread = true ∧
    StartSession true (.jarr [.jobj [("host", .jstr "h")]]) ⟨[(1, 2)], true, .jobj []⟩
      = ⟨⟨[(1, 2)], true, .jobj []⟩,
         [printLogEff "startSession: invalid arguments\n"], false⟩ :=
  ⟨rfl, session_single_flight_c5 true (.jarr [.jobj [("host", .jstr "h")]])
    ⟨[(1, 2)], true, .jobj []⟩ rfl⟩

/-- C6: the argument vector handed to `ssh_main` is, in this exact
order: program name `ssh`, the `-vvv` flag in DEBUG builds only, the
config's string arguments in their original order (non-strings
skipped), the optional `-p<port>` flag, the optional `<user>@<host>`
token; with username `u`, host `h`, port 2222 and arguments `["-A"]`
this yields `[ssh, -A, -p2222, u@h]`, while the subsystem is carried
as a separate parameter and never becomes an argv token. -/
theorem argv_construction_c6 (debug : Bool) (sa : JVal) :
    sessionArgv debug sa
      = ["ssh"] ++ (if debug then ["-vvv"] else []) ++ argStringsOf sa ++
        portTokenOf sa ++ userHostTokenOf sa ∧
    sessionArgv false (.jobj [("username", .jstr "u"), ("host", .jstr "h"),
        ("port", .jnum 2222), ("arguments", .jarr [.jstr "-A"]),
        ("subsystem", .jstr "sftp")])
      = ["ssh", "-A", "-p2222", "u@h"] ∧
    subsystemOf (.jobj [("username", .jstr "u"), ("host", .jstr "h"),
        ("port", .jnum 2222), ("arguments", .jarr [.jstr "-A"]),
        ("subsystem", .jstr "sftp")]) = some "sftp" :=
  ⟨sessionArgv_eq debug sa, by decide, by decide⟩

theorem onRead_streams (args : JVal) (s : PluginState) :
    (OnRead args s).state.streams = s.streams := by
  rw [OnRead]
  split_ifs with hc
  · cases hm : lookupFd s.streams (jsonAt args 0).asInt with
    | none => simp [hm]
    | some h =>
      cases hd : decodeBytes (jsonAt args 1).asString.toList with
      | none => simp [hm, hd]
      | some bs => simp [hm, hd]
  · rfl

theorem onWriteAcknowledge_streams (args : JVal) (s : PluginState) :
    (OnWriteAcknowledge args s).state.streams = s.streams := by
  rw [OnWriteAcknowledge]
  split_ifs with hc
  · cases hm : lookupFd s.streams (jsonAt args 0).asInt with
    | none => simp [hm]
    | some h => simp [hm]
  · rfl

theorem onReadReady_streams (args : JVal) (s : PluginState) :
    (OnReadReady args s).state.streams = s.streams := by
  rw [OnReadReady]
  split_ifs with hc
  · cases hm : lookupFd s.streams (jsonAt args 0).asInt with
    | none => simp [hm]
    | some h => simp [hm]
  · rfl

theorem exitCodesOf_exit_single (c : Int) :
    exitCodesOf [Effect.invokeJS "exit" [.jnum c]] = [c] := by
  simp [exitCodesOf]

/-- C7: for an accepted `startSession`, exactly one `exit` envelope is
produced over the whole session: it carries `ssh_main`'s return value
when the session thread runs to completion, and `-1` when the thread
could not be created, in which case the controller is back to Idle
(`openssh_thread_` null); the thread handle is also cleared after a
normal completion. -/
theorem exit_reporting_c7 (spawnOk : Bool) (ret : Int) (args : JVal)
    (s : PluginState) (hsize : args.size = 1)
    (hobj : (jsonAt args 0).isObject = true) (hidle : s.opensshThread = false) :
    exitCodesOf (sessionRun spawnOk ret args s).2
      = [if spawnOk then ret else -1] ∧
    (sessionRun spawnOk ret args s).1.opensshThread = false := by
  obtain ⟨st, th, sar⟩ := s
  have hth : th = false := hidle
  subst hth
  cases spawnOk
  · simp only [sessionRun, StartSession, hsize, hobj, beq_self_eq_true,
      Bool.not_false, Bool.and_true, Bool.true_and, eq_self_iff_true, if_true,
      Bool.false_eq_true, if_false, SendExitCode]
    constructor
    · rw [exitCodesOf_append, exitCodesOf_configEffects, exitCodesOf_exit_single]
      rfl
    · trivial
  · simp only [sessionRun, StartSession, hsize, hobj, beq_self_eq_true,
      Bool.not_false, Bool.and_true, Bool.true_and, eq_self_iff_true, if_true,
      Bool.false_eq_true, if_false, SendExitCode]
    constructor
    · rw [List.append_assoc, exitCodesOf_append, exitCodesOf_configEffects]
      rfl
    · trivial

theorem exit_reporting_c7_witness :
    ((JVal.jarr [.jobj []]).size = 1 ∧
     (jsonAt (.jarr [.jobj []]) 0).isObject = true ∧
     (⟨[], false, .jnull⟩ : PluginState).opensshThread = false) ∧
    (exitCodesOf (sessionRun false 0 (.jarr [.jobj []]) ⟨[], false, .jnull⟩).2
       = [if false then 0 else -1] ∧
     (sessionRun false 0 (.jarr [.jobj []]) ⟨[], false, .jnull⟩).1.opensshThread
       = false) :=
  ⟨⟨rfl, rfl, rfl⟩, exit_reporting_c7 false 0 (.jarr [.jobj []])
    ⟨[], false, .jnull⟩ rfl rfl rfl⟩

/-- C8: an open-result with `success = false` for a registered fd
forwards the result to the handle and then unregisters the
descriptor, so a following `onClose` for the same fd reports an
unknown descriptor and changes nothing; an open-result with
`success = true` leaves the descriptor registered. -/
theorem failed_open_unregisters_c8 (fd : Int) (h : Nat) (tty : Bool)
    (s : PluginState) (hreg : lookupFd s.streams fd = some h) :
    (OnOpen (.jarr [.jnum fd, .jbool false, .jbool tty]) s).state.streams
      = eraseFd s.streams fd ∧
    (OnOpen (.jarr [.jnum fd, .jbool false, .jbool tty]) s).effects
      = [Effect.streamOnOpen h false tty] ∧
    OnClose (.jarr [.jnum fd])
        (OnOpen (.jarr [.jnum fd, .jbool false, .jbool tty]) s).state
      = ⟨(OnOpen (.jarr [.jnum fd, .jbool false, .jbool tty]) s).state,
         [printLogEff "onClose: for unknown file descriptor\n"], false⟩ ∧
    (OnOpen (.jarr [.jnum fd, .jbool true, .jbool tty]) s).state.streams
      = s.streams := by
  have hopen : OnOpen (.jarr [.jnum fd, .jbool false, .jbool tty]) s
      = ⟨{ s with streams := eraseFd s.streams fd },
         [Effect.streamOnOpen h false tty], false⟩ := by
    rw [OnOpen]
    simp [jsonAt, JVal.isNumeric, JVal.isBool, JVal.asInt, JVal.asBool, hreg]
  refine ⟨by rw [hopen], by rw [hopen], ?_, ?_⟩
  · rw [hopen, OnClose]
    simp only [jsonAt, List.getD_cons_zero, JVal.asInt]
    rw [lookupFd_eraseFd_self]
  · rw [OnOpen]
    simp [jsonAt, JVal.isNumeric, JVal.isBool, JVal.asInt, JVal.asBool, hreg]

theorem failed_open_unregisters_c8_witness :
    lookupFd ([(6, 2)] : List (Int × Nat)) 6 = some 2 ∧
    ((OnOpen (.jarr [.jnum 6, .jbool false, .jbool true]) ⟨[(6, 2)], false, .jnull⟩).state.streams
       = eraseFd [(6, 2)] 6 ∧
     (OnOpen (.jarr [.jnum 6, .jbool false, .jbool true]) ⟨[(6, 2)], false, .jnull⟩).effects
       = [Effect.streamOnOpen 2 false true] ∧
     OnClose (.jarr [.jnum 6])
         (OnOpen (.jarr [.jnum 6, .jbool false, .jbool true]) ⟨[(6, 2)], false, .jnull⟩).state
       = ⟨(OnOpen (.jarr [.jnum 6, .jbool false, .jbool true]) ⟨[(6, 2)], false, .jnull⟩).state,
          [printLogEff "onClose: for unknown file descriptor\n"], false⟩ ∧
     (OnOpen (.jarr [.jnum 6, .jbool true, .jbool true]) ⟨[(6, 2)], false, .jnull⟩).state.streams
       = [(6, 2)]) :=
  ⟨by decide, failed_open_unregisters_c8 6 2 true ⟨[(6, 2)], false, .jnull⟩ (by decide)⟩

/-- C9: for an fd that is not registered, `onRead`, `onClose`,
`onWriteAcknowledge` and `onReadReady` each log a diagnostic and
change nothing; and `onRead`, `onWriteAcknowledge` and `onReadReady`
never remove a descriptor from the registry, whatever their
arguments. -/
theorem unknown_fd_ops_c9 (fd : Int) (dat : String) (cnt : Int) (rdy : Bool)
    (args2 : JVal) (s : PluginState)
    (hnone : lookupFd s.streams fd = none) :
    OnRead (.jarr [.jnum fd, .jstr dat]) s
      = ⟨s, [printLogEff "onRead: for unknown file descriptor\n"], false⟩ ∧
    OnClose (.jarr [.jnum fd]) s
      = ⟨s, [printLogEff "onClose: for unknown file descriptor\n"], false⟩ ∧
    OnWriteAcknowledge (.jarr [.jnum fd, .jnum cnt]) s
      = ⟨s, [printLogEff "onWriteAcknowledge: for unknown file descriptor\n"], false⟩ ∧
    OnReadReady (.jarr [.jnum fd, .jbool rdy]) s
      = ⟨s, [printLogEff "onReadReady: for unknown file descriptor\n"], false⟩ ∧
    (OnRead args2 s).state.streams = s.streams ∧
    (OnWriteAcknowledge args2 s).state.streams = s.streams ∧
    (OnReadReady args2 s).state.streams = s.streams := by
  refine ⟨?_, ?_, ?_, ?_, onRead_streams args2 s,
    onWriteAcknowledge_streams args2 s, onReadReady_streams args2 s⟩
  · rw [OnRead]
    simp [jsonAt, JVal.isNumeric, JVal.isString, JVal.asInt, hnone]
  · rw [OnClose]
    simp only [jsonAt, List.getD_cons_zero, JVal.asInt]
    rw [hnone]
  · rw [OnWriteAcknowledge]
    simp [jsonAt, JVal.isNumeric, JVal.asInt, hnone]
  · rw [OnReadReady]
    simp [jsonAt, JVal.isNumeric, JVal.isBool, JVal.asInt, hnone]

theorem unknown_fd_ops_c9_witness :
    lookupFd ([(1, 4)] : List (Int × Nat)) 8 = none ∧
    (OnRead (.jarr [.jnum 8, .jstr "QQ=="]) ⟨[(1, 4)], false, .jnull⟩
       = ⟨⟨[(1, 4)], false, .jnull⟩,
          [printLogEff "onRead: for unknown file descriptor\n"], false⟩ ∧
     OnClose (.jarr [.jnum 8]) ⟨[(1, 4)], false, .jnull⟩
       = ⟨⟨[(1, 4)], false, .jnull⟩,
          [printLogEff "onClose: for unknown file descriptor\n"], false⟩ ∧
     OnWriteAcknowledge (.jarr [.jnum 8, .jnum 12]) ⟨[(1, 4)], false, .jnull⟩
       = ⟨⟨[(1, 4)], false, .jnull⟩,
          [printLogEff "onWriteAcknowledge: for unknown file descriptor\n"], false⟩ ∧
     OnReadReady (.jarr [.jnum 8, .jbool true]) ⟨[(1, 4)], false, .jnull⟩
       = ⟨⟨[(1, 4)], false, .jnull⟩,
          [printLogEff "onReadReady: for unknown file descriptor\n"], false⟩ ∧
     (OnRead (.jarr []) ⟨[(1, 4)], false, .jnull⟩).state.streams = [(1, 4)] ∧
     (OnWriteAcknowledge (.jarr []) ⟨[(1, 4)], false, .jnull⟩).state.streams = [(1, 4)] ∧
     (OnReadReady (.jarr []) ⟨[(1, 4)], false, .jnull⟩).state.streams = [(1, 4)]) :=
  ⟨by decide, unknown_fd_ops_c9 8 "QQ==" 12 true (.jarr []) ⟨[(1, 4)], false, .jnull⟩ (by decide)⟩

/-- C10: the `<user>@<host>` token is appended exactly when both the
`username` and the `host` member are present; when at most one of the
two is present the argument vector ends with the port token and
carries no user or host information. -/
theorem user_host_token_c10 (debug : Bool) (sa : JVal) :
    (sa.isMember "username" = true ∧ sa.isMember "host" = true →
      sessionArgv debug sa
        = ["ssh"] ++ (if debug then ["-vvv"] else []) ++ argStringsOf sa ++
          portTokenOf sa ++
          [(memberD sa "username").asString ++ "@" ++ (memberD sa "host").asString]) ∧
    (¬(sa.isMember "username" = true ∧ sa.isMember "host" = true) →
      sessionArgv debug sa
        = ["ssh"] ++ (if debug then ["-vvv"] else []) ++ argStringsOf sa ++
          portTokenOf sa) := by
  constructor
  · intro hboth
    rw [sessionArgv_eq, userHostTokenOf,
      if_pos (show (sa.isMember "username" && sa.isMember "host") = true by
        rw [Bool.and_eq_true]; exact hboth)]
  · intro hnot
    rw [sessionArgv_eq, userHostTokenOf,
      if_neg (show ¬(sa.isMember "username" && sa.isMember "host") = true by
        rw [Bool.and_eq_true]; exact hnot), List.append_nil]

theorem user_host_token_c10_witness :
    (¬((JVal.jobj [("username", .jstr "u"), ("port", .jnum 22)]).isMember "username" = true ∧
       (JVal.jobj [("username", .jstr "u"), ("port", .jnum 22)]).isMember "host" = true)) ∧
    sessionArgv false (.jobj [("username", .jstr "u"), ("port", .jnum 22)])
      = ["ssh"] ++ (if false then ["-vvv"] else []) ++
        argStringsOf (.jobj [("username", .jstr "u"), ("port", .jnum 22)]) ++
        portTokenOf (.jobj [("username", .jstr "u"), ("port", .jnum 22)]) :=
  ⟨by decide, (user_host_token_c10 false
    (.jobj [("username", .jstr "u"), ("port", .jnum 22)])).2 (by decide)⟩
